import Mathlib

/-!
Verification of the `skgpu::graphite` texture-description value types
(`include/gpu/graphite/TextureInfo.h` and `include/gpu/graphite/BackendTexture.h`)
against their natural-language specification.

The headers in the repository are declarations plus a handful of inline bodies.
Definitions below that embed an inline body are translated directly from the
header; definitions whose C++ body lives outside the repository excerpt are
marked `Modelled from the spec:` and follow the specification's words.
The Vulkan backend (`SK_VULKAN`) is taken as enabled, since every claim is
stated about the Vulkan payload path.
-/

namespace Skia

/-- `BackendApi` enumeration from GraphiteTypes.h (referenced by the headers as
`BackendApi::kMock`, `BackendApi::kVulkan`, `BackendApi::kDawn`). -/
inductive BackendApi where
  | kDawn
  | kMetal
  | kVulkan
  | kMock
  deriving DecidableEq, Repr

/-- `skgpu::Mipmapped` flag (kNo / kYes). -/
inductive Mipmapped where
  | kNo
  | kYes
  deriving DecidableEq, Repr

/-- `skgpu::Protected` flag (kNo / kYes). -/
inductive Protected where
  | kNo
  | kYes
  deriving DecidableEq, Repr

/-- Modelled from the spec: the Vulkan backend-specific spec payload
(`VulkanTextureSpec`, declared in VulkanGraphiteTypesPriv.h which is not part of
the excerpt). Per the spec it carries the backend-specific shape data:
"pixel/surface format, tiling mode, usage flags, Y′CbCr/planar metadata".
Vulkan enum/flag values are embedded as natural numbers. -/
structure VulkanTextureSpec where
  fFlags : Nat := 0
  fFormat : Nat := 0
  fImageTiling : Nat := 0
  fImageUsageFlags : Nat := 0
  fSharingMode : Nat := 0
  fAspectMask : Nat := 0
  fYcbcrConversionInfo : Nat := 0
  deriving DecidableEq, Repr

/-- Modelled from the spec: the Vulkan native texture-info struct
(`VulkanTextureInfo`, declared in VulkanGraphiteTypesPriv.h, not in the
excerpt): the backend-specific spec fields together with the sample count and
mipmapped state that the `TextureInfo` header fields are derived from. -/
structure VulkanTextureInfo where
  fSampleCount : Nat := 1
  fMipmapped : Mipmapped := Mipmapped.kNo
  fFlags : Nat := 0
  fFormat : Nat := 0
  fImageTiling : Nat := 0
  fImageUsageFlags : Nat := 0
  fSharingMode : Nat := 0
  fAspectMask : Nat := 0
  fYcbcrConversionInfo : Nat := 0
  deriving DecidableEq, Repr

/-- Modelled from the spec: `VulkanTextureInfoToTextureSpec` (declared in
VulkanGraphiteTypesPriv.h, not in the excerpt) splits the native info into the
stored spec, dropping the sample count and mipmapped state that move into the
`TextureInfo` header. -/
def VulkanTextureInfoToTextureSpec (info : VulkanTextureInfo) : VulkanTextureSpec :=
  { fFlags := info.fFlags
    fFormat := info.fFormat
    fImageTiling := info.fImageTiling
    fImageUsageFlags := info.fImageUsageFlags
    fSharingMode := info.fSharingMode
    fAspectMask := info.fAspectMask
    fYcbcrConversionInfo := info.fYcbcrConversionInfo }

/-- Modelled from the spec: `VulkanTextureSpecToTextureInfo` (used by
`TextureInfo::getVulkanTextureInfo` in the header, declared in
VulkanGraphiteTypesPriv.h, not in the excerpt) rebuilds the native info from
the stored spec plus the header's sample count and mipmapped state. -/
def VulkanTextureSpecToTextureInfo (spec : VulkanTextureSpec) (sampleCount : Nat)
    (mipped : Mipmapped) : VulkanTextureInfo :=
  { fSampleCount := sampleCount
    fMipmapped := mipped
    fFlags := spec.fFlags
    fFormat := spec.fFormat
    fImageTiling := spec.fImageTiling
    fImageUsageFlags := spec.fImageUsageFlags
    fSharingMode := spec.fSharingMode
    fAspectMask := spec.fAspectMask
    fYcbcrConversionInfo := spec.fYcbcrConversionInfo }

/-- `TextureInfo` (TextureInfo.h lines 35-156). The private fields carry the
in-class initializers of lines 138-143; the union member `fVkSpec` (line 152)
has no C++ initializer and is modelled with the zero spec, which no accessor
reads unless the Vulkan payload was emplaced. -/
structure TextureInfo where
  fBackend : BackendApi := BackendApi.kMock
  fValid : Bool := false
  fSampleCount : Nat := 1
  fMipmapped : Mipmapped := Mipmapped.kNo
  fProtected : Protected := Protected.kNo
  fVkSpec : VulkanTextureSpec := {}
  deriving DecidableEq, Repr

/-- `TextureInfo()` default constructor (line 37): all fields take their
in-class initializers. -/
def TextureInfo.mkDefault : TextureInfo := {}

/-- `TextureInfo::isValid` (line 57): `return fValid;`. -/
def TextureInfo.isValid (t : TextureInfo) : Bool := t.fValid

/-- `TextureInfo::backend` (line 58): `return fBackend;`. -/
def TextureInfo.backend (t : TextureInfo) : BackendApi := t.fBackend

/-- `TextureInfo::numSamples` (line 60): `return fSampleCount;`. -/
def TextureInfo.numSamples (t : TextureInfo) : Nat := t.fSampleCount

/-- `TextureInfo::mipmapped` (line 61): `return fMipmapped;`. -/
def TextureInfo.mipmapped (t : TextureInfo) : Mipmapped := t.fMipmapped

/-- `TextureInfo::isProtected` (line 62): `return fProtected;`. -/
def TextureInfo.isProtected (t : TextureInfo) : Protected := t.fProtected

/-- Modelled from the spec: `TextureInfo::TextureInfo(const VulkanTextureInfo&)`
(declared at line 47; its body is not in the excerpt). Per the spec, each
backend constructor derives `\x7bbackend, sampleCount, mipmapped, protected\x7d`
from the native info and emplaces the backend-specific spec; the private
template constructor (lines 94-106) shows the field assignments, with
`fValid = true`. Protected-ness is derived from the Vulkan image-create flag
bit `VK_IMAGE_CREATE_PROTECTED_BIT` (bit 11) carried in `fFlags`. -/
def TextureInfo.fromVulkan (vkInfo : VulkanTextureInfo) : TextureInfo :=
  { fBackend := BackendApi.kVulkan
    fValid := true
    fSampleCount := vkInfo.fSampleCount
    fMipmapped := vkInfo.fMipmapped
    fProtected := if vkInfo.fFlags.testBit 11 then Protected.kYes else Protected.kNo
    fVkSpec := VulkanTextureInfoToTextureSpec vkInfo }

/-- `TextureInfo::getVulkanTextureInfo` (lines 70-76, inline in the header):
fails when `!isValid() || fBackend != BackendApi::kVulkan`, otherwise writes
`VulkanTextureSpecToTextureInfo(fVkSpec, fSampleCount, fMipmapped)` through the
out-pointer. The out-parameter is modelled by taking its pre-call value and
returning the success flag together with its post-call value. -/
def TextureInfo.getVulkanTextureInfo (t : TextureInfo) (info : VulkanTextureInfo) :
    Bool × VulkanTextureInfo :=
  if !t.isValid || !(decide (t.fBackend = BackendApi.kVulkan)) then
    (false, info)
  else
    (true, VulkanTextureSpecToTextureInfo t.fVkSpec t.fSampleCount t.fMipmapped)

/-- Modelled from the spec: `TextureInfo::operator==` (declared at line 54, body
not in the excerpt). The spec describes `TextureInfo` as a comparable value
type whose equality covers the header fields and the backend-specific payload;
the payload comparison is only meaningful once the backend tags agree. -/
def TextureInfo.opEq (a b : TextureInfo) : Bool :=
  decide (a.fValid = b.fValid) &&
  decide (a.fBackend = b.fBackend) &&
  decide (a.fSampleCount = b.fSampleCount) &&
  decide (a.fMipmapped = b.fMipmapped) &&
  decide (a.fProtected = b.fProtected) &&
  decide (a.fVkSpec = b.fVkSpec)

/-- `TextureInfo::operator!=` (line 55, inline in the header):
`return !(*this == that);`. -/
def TextureInfo.opNe (a b : TextureInfo) : Bool := !(TextureInfo.opEq a b)

/-- Modelled from the spec: `TextureInfo::isCompatible` (declared at line 79,
body not in the excerpt). Per the spec it "returns true iff both are valid,
share the same backend, and their backend-specific specs are compatible for
interchangeable use", where the exact backend rule "must be total:
compatibility is symmetric and compatibility with self is always true for any
valid info"; the backend-specific rule is modelled as equality of the stored
spec and of the attachment-relevant header fields. -/
def TextureInfo.isCompatible (a b : TextureInfo) : Bool :=
  a.fValid && b.fValid &&
  decide (a.fBackend = b.fBackend) &&
  decide (a.fSampleCount = b.fSampleCount) &&
  decide (a.fMipmapped = b.fMipmapped) &&
  decide (a.fProtected = b.fProtected) &&
  decide (a.fVkSpec = b.fVkSpec)

/-- `SkISize` dimensions (width × height). -/
structure SkISize where
  fWidth : Int := 0
  fHeight : Int := 0
  deriving DecidableEq, Repr

/-- `VulkanAlloc` memory-allocation descriptor (VulkanTypes.h, not in the
excerpt; modelled from the spec as the "memory-allocation descriptor" handed to
the Vulkan constructor). `VulkanAlloc()` is the all-default null descriptor
(BackendTexture.h line 156). -/
structure VulkanAlloc where
  fMemory : Nat := 0
  fOffset : Nat := 0
  fSize : Nat := 0
  fFlags : Nat := 0
  deriving DecidableEq, Repr

/-- Modelled from the spec: `skgpu::MutableTextureState` (forward-declared at
BackendTexture.h line 31, defined elsewhere). Per the spec it carries the
post-construction-mutable backend attributes: "current image layout, current
queue-ownership index". -/
structure MutableTextureState where
  fImageLayout : Nat := 0
  fQueueFamilyIndex : Nat := 0
  deriving DecidableEq, Repr

/-- The heap of reference-counted `MutableTextureState` objects: an
`sk_sp<MutableTextureState>` (BackendTexture.h line 150) is modelled as an index
into this store, so that several `BackendTexture` values can share one state
object by holding the same index. -/
def MutableStateStore : Type := Nat → MutableTextureState

/-- `BackendTexture` (BackendTexture.h lines 38-171) with the Vulkan backend
enabled: `fDimensions`, `fInfo`, the shared `fMutableState` reference, the
`fMemoryAlloc = VulkanAlloc()` initializer (line 156) and the union member
`fVkImage = VK_NULL_HANDLE` (line 167), with `VK_NULL_HANDLE` embedded as 0. -/
structure BackendTexture where
  fDimensions : SkISize := {}
  fInfo : TextureInfo := {}
  fMutableState : Nat := 0
  fMemoryAlloc : VulkanAlloc := {}
  fVkImage : Nat := 0
  deriving DecidableEq, Repr

/-- `BackendTexture()` default constructor (line 40): the embedded
`TextureInfo` default-constructs to the invalid mock-tagged value. -/
def BackendTexture.mkDefault : BackendTexture := {}

/-- `BackendTexture::isValid` (line 102): `return fInfo.isValid();`. -/
def BackendTexture.isValid (b : BackendTexture) : Bool := b.fInfo.isValid

/-- `BackendTexture::backend` (line 103): `return fInfo.backend();`. -/
def BackendTexture.backend (b : BackendTexture) : BackendApi := b.fInfo.backend

/-- `BackendTexture::dimensions` (line 105): `return fDimensions;`. -/
def BackendTexture.dimensions (b : BackendTexture) : SkISize := b.fDimensions

/-- `BackendTexture::info` (line 107): `return fInfo;`. -/
def BackendTexture.info (b : BackendTexture) : TextureInfo := b.fInfo

/-- Modelled from the spec: `BackendTexture::operator==` (declared at line 99,
body not in the excerpt). Per the spec, equality "requires equal dimensions,
equal `info()`, and equal backend-specific handle identity (exact native handle
equality, not resource-content equality)"; for the Vulkan backend the native
handle is the `fVkImage` union member. -/
def BackendTexture.opEq (a b : BackendTexture) : Bool :=
  decide (a.fDimensions = b.fDimensions) &&
  TextureInfo.opEq a.fInfo b.fInfo &&
  decide (a.fVkImage = b.fVkImage)

/-- `BackendTexture::operator!=` (line 100, inline in the header):
`return !(*this == that);`. -/
def BackendTexture.opNe (a b : BackendTexture) : Bool := !(BackendTexture.opEq a b)

/-- Modelled from the spec: `BackendTexture::setMutableState` (declared at line
114, body not in the excerpt). Per the spec it "replaces the backend-mutable
attributes (e.g. current layout, current queue-family owner) referenced by this
handle; this is the *only* post-construction mutation path and is shared — if
the `BackendTexture` was copied, both copies observe the update (they share the
same mutable-state object by reference)". In the store model it replaces the
shared state object this handle references, leaving every other state object
and the handle itself untouched. -/
def BackendTexture.setMutableState (store : MutableStateStore) (b : BackendTexture)
    (state : MutableTextureState) : MutableStateStore × BackendTexture :=
  (fun i => if i = b.fMutableState then state else store i, b)

/-- Modelled from the spec: `BackendTexture::getVkImage` (declared at line 122,
body not in the excerpt). Per the spec, backend-specific accessors are "valid
only when `backend()` matches; otherwise must return a null/sentinel value";
the Vulkan image sentinel is `VK_NULL_HANDLE` (= 0). -/
def BackendTexture.getVkImage (b : BackendTexture) : Nat :=
  if b.isValid && decide (b.backend = BackendApi.kVulkan) then b.fVkImage else 0

/-- Modelled from the spec: `BackendTexture::getVkImageLayout` (declared at line
123, body not in the excerpt): reads the current layout from the shared mutable
state when the backend matches, otherwise returns the sentinel
`VK_IMAGE_LAYOUT_UNDEFINED` (= 0). -/
def BackendTexture.getVkImageLayout (store : MutableStateStore) (b : BackendTexture) : Nat :=
  if b.isValid && decide (b.backend = BackendApi.kVulkan) then
    (store b.fMutableState).fImageLayout
  else 0

/-- Modelled from the spec: `BackendTexture::getVkQueueFamilyIndex` (declared at
line 124, body not in the excerpt): reads the current queue-family owner from
the shared mutable state when the backend matches, otherwise returns the
sentinel 0. -/
def BackendTexture.getVkQueueFamilyIndex (store : MutableStateStore) (b : BackendTexture) : Nat :=
  if b.isValid && decide (b.backend = BackendApi.kVulkan) then
    (store b.fMutableState).fQueueFamilyIndex
  else 0

/-- Modelled from the spec: `BackendTexture::getMemoryAlloc` (declared at line
125, body not in the excerpt): returns a pointer to the allocation descriptor
when the backend matches, otherwise a null result (modelled as `Option`). -/
def BackendTexture.getMemoryAlloc (b : BackendTexture) : Option VulkanAlloc :=
  if b.isValid && decide (b.backend = BackendApi.kVulkan) then some b.fMemoryAlloc else none

/-- `TextureInfo::kMaxSubclassSize` (TextureInfo.h line 91): the fixed payload
capacity, 40 bytes. -/
def TextureInfo.kMaxSubclassSize : Nat := 40

/-- `BackendTexture::kMaxSubclassSize` (BackendTexture.h line 134): the fixed
payload capacity, 16 bytes. -/
def BackendTexture.kMaxSubclassSize : Nat := 16

/-- Modelled from the spec: `SkAnySubclass<Base, C>::emplace`
(include/private/base/SkAnySubclass.h is not in the excerpt). Per the spec,
`emplace<ConcretePayload>(value)` constructs the payload in place "requiring
`sizeof(ConcretePayload) <= C` (a build-time constraint, violated
constructions must fail to compile/be rejected, not silently truncate)". The
build-time size check is modelled as a guard over the payload size: an
accepted emplacement stores the payload whole (`some size`), an oversized one
is rejected outright (`none`), never truncated. -/
def SkAnySubclass.emplace (capacity : Nat) (payloadSize : Nat) : Option Nat :=
  if payloadSize ≤ capacity then some payloadSize else none

/-- A boolean equality follows from the equivalence of the two truth
conditions. -/
lemma bool_eq_of_true_iff {a b : Bool} (h : a = true ↔ b = true) : a = b := by
  cases a <;> cases b <;> simp_all

/-- C1: for every `VulkanTextureInfo` v, constructing a `TextureInfo` from v
via the Vulkan constructor and then extracting with `getVulkanTextureInfo`
succeeds (returns true), and the extracted `VulkanTextureInfo` reproduces v
exactly, sample count and mipmapped state included. -/
theorem vulkan_textureinfo_roundtrip (v : VulkanTextureInfo) (info0 : VulkanTextureInfo) :
    ((TextureInfo.fromVulkan v).getVulkanTextureInfo info0).1 = true ∧
    ((TextureInfo.fromVulkan v).getVulkanTextureInfo info0).2 = v := by
  exact ⟨rfl, rfl⟩

/-- C2: `getVulkanTextureInfo` returns false iff the `TextureInfo` is invalid
or its backend is not the Vulkan tag; on the false path the out-parameter is
left completely unchanged, and on the true path it returns true after filling
the out-parameter from the stored spec. -/
theorem getVulkanTextureInfo_error_contract (t : TextureInfo) (info0 : VulkanTextureInfo) :
    (((t.getVulkanTextureInfo info0).1 = false) ↔
      (t.isValid = false ∨ t.backend ≠ BackendApi.kVulkan)) ∧
    ((t.getVulkanTextureInfo info0).1 = false → (t.getVulkanTextureInfo info0).2 = info0) ∧
    ((t.getVulkanTextureInfo info0).1 = true →
      (t.getVulkanTextureInfo info0).2 =
        VulkanTextureSpecToTextureInfo t.fVkSpec t.fSampleCount t.fMipmapped) := by
  by_cases h2 : t.fBackend = BackendApi.kVulkan <;> cases hb : t.fValid <;>
    simp [TextureInfo.getVulkanTextureInfo, TextureInfo.isValid, TextureInfo.backend, h2, hb]

/-- C3: `isCompatible` is reflexive on valid `TextureInfo` values and symmetric
on every pair of `TextureInfo` values. -/
theorem isCompatible_refl_symm (a b : TextureInfo) :
    (a.isValid = true → a.isCompatible a = true) ∧
    a.isCompatible b = b.isCompatible a := by
  constructor
  · intro h
    have hv : a.fValid = true := h
    simp [TextureInfo.isCompatible, hv]
  · apply bool_eq_of_true_iff
    simp only [TextureInfo.isCompatible, Bool.and_eq_true, decide_eq_true_eq]
    constructor
    · rintro ⟨⟨⟨⟨⟨⟨h1, h2⟩, h3⟩, h4⟩, h5⟩, h6⟩, h7⟩
      exact ⟨⟨⟨⟨⟨⟨h2, h1⟩, h3.symm⟩, h4.symm⟩, h5.symm⟩, h6.symm⟩, h7.symm⟩
    · rintro ⟨⟨⟨⟨⟨⟨h1, h2⟩, h3⟩, h4⟩, h5⟩, h6⟩, h7⟩
      exact ⟨⟨⟨⟨⟨⟨h2, h1⟩, h3.symm⟩, h4.symm⟩, h5.symm⟩, h6.symm⟩, h7.symm⟩

/-- C4: `BackendTexture` equality holds iff the dimensions are equal, the
embedded `TextureInfo` values are equal, and the native Vulkan image handles
are identical; differing only in dimensions, or only in the native handle,
makes the two compare unequal. -/
theorem backendtexture_eq_iff (a b : BackendTexture) :
    (BackendTexture.opEq a b = true ↔
      (a.fDimensions = b.fDimensions ∧ TextureInfo.opEq a.fInfo b.fInfo = true ∧
        a.fVkImage = b.fVkImage)) ∧
    (a.fDimensions ≠ b.fDimensions → BackendTexture.opEq a b = false) ∧
    (a.fVkImage ≠ b.fVkImage → BackendTexture.opEq a b = false) := by
  refine ⟨?_, ?_, ?_⟩
  · simp only [BackendTexture.opEq, Bool.and_eq_true, decide_eq_true_eq]
    tauto
  · intro h
    simp [BackendTexture.opEq, h]
  · intro h
    simp [BackendTexture.opEq, h]

/-- C5: a default-constructed `TextureInfo` reports `isValid() == false`,
`backend() == kMock`, `numSamples() == 1`, `mipmapped() == kNo` and
`isProtected() == kNo`, and `getVulkanTextureInfo` on it always fails. -/
theorem default_textureinfo_properties :
    TextureInfo.mkDefault.isValid = false ∧
    TextureInfo.mkDefault.backend = BackendApi.kMock ∧
    TextureInfo.mkDefault.numSamples = 1 ∧
    TextureInfo.mkDefault.mipmapped = Mipmapped.kNo ∧
    TextureInfo.mkDefault.isProtected = Protected.kNo ∧
    ∀ info0 : VulkanTextureInfo, (TextureInfo.mkDefault.getVulkanTextureInfo info0).1 = false :=
  ⟨rfl, rfl, rfl, rfl, rfl, fun _ => rfl⟩

/-- C6: `BackendTexture::isValid` and `BackendTexture::backend` delegate to the
embedded `TextureInfo`, and a default-constructed `BackendTexture` reports
`isValid() == false`. -/
theorem backendtexture_delegates_validity (b : BackendTexture) :
    b.isValid = b.info.isValid ∧ b.backend = b.info.backend ∧
    BackendTexture.mkDefault.isValid = false :=
  ⟨rfl, rfl, rfl⟩

/-- C7: on a `BackendTexture` that is invalid or whose backend is not the
Vulkan tag, every Vulkan-specific accessor returns its null/sentinel value:
`getVkImage` returns `VK_NULL_HANDLE` (0), `getVkImageLayout` and
`getVkQueueFamilyIndex` return their sentinel defaults (0), and
`getMemoryAlloc` returns the null result. -/
theorem vulkan_accessors_sentinel (store : MutableStateStore) (b : BackendTexture)
    (h : b.isValid = false ∨ b.backend ≠ BackendApi.kVulkan) :
    b.getVkImage = 0 ∧
    BackendTexture.getVkImageLayout store b = 0 ∧
    BackendTexture.getVkQueueFamilyIndex store b = 0 ∧
    b.getMemoryAlloc = none := by
  have hc : (b.isValid && decide (b.backend = BackendApi.kVulkan)) = false := by
    rcases h with h | h
    · simp [h]
    · simp [h]
  simp [BackendTexture.getVkImage, BackendTexture.getVkImageLayout,
        BackendTexture.getVkQueueFamilyIndex, BackendTexture.getMemoryAlloc, hc]

/-- C7 witness: the sentinel contract evaluated on the default-constructed
(invalid, mock-tagged) `BackendTexture` and a concrete state store. -/
theorem vulkan_accessors_sentinel_witness :
    BackendTexture.getVkImage BackendTexture.mkDefault = 0 ∧
    BackendTexture.getVkImageLayout (fun _ => {}) BackendTexture.mkDefault = 0 ∧
    BackendTexture.getVkQueueFamilyIndex (fun _ => {}) BackendTexture.mkDefault = 0 ∧
    BackendTexture.getMemoryAlloc BackendTexture.mkDefault = none :=
  vulkan_accessors_sentinel (fun _ => {}) BackendTexture.mkDefault (Or.inl rfl)

/-- C8: `setMutableState` leaves the `BackendTexture` itself — its dimensions,
its embedded `TextureInfo`, its native handle, and hence its equality
identity — unchanged; it replaces exactly the shared mutable-state object the
handle references, and no other state object in the store. -/
theorem setMutableState_frame (store : MutableStateStore) (b : BackendTexture)
    (s : MutableTextureState) :
    (BackendTexture.setMutableState store b s).2 = b ∧
    (BackendTexture.setMutableState store b s).2.dimensions = b.dimensions ∧
    (BackendTexture.setMutableState store b s).2.info = b.info ∧
    (BackendTexture.setMutableState store b s).2.fVkImage = b.fVkImage ∧
    (BackendTexture.setMutableState store b s).1 b.fMutableState = s ∧
    ∀ j, j ≠ b.fMutableState → (BackendTexture.setMutableState store b s).1 j = store j := by
  refine ⟨rfl, rfl, rfl, rfl, ?_, ?_⟩
  · simp [BackendTexture.setMutableState]
  · intro j hj
    simp [BackendTexture.setMutableState, hj]

/-- C9: emplacing a payload larger than the declared fixed capacity — 40 bytes
for `TextureInfo` payloads, 16 bytes for `BackendTexture` payloads — is
rejected outright, and an accepted emplacement stores the payload whole,
never truncated. -/
theorem emplace_size_check (payloadSize : Nat) :
    (TextureInfo.kMaxSubclassSize < payloadSize →
      SkAnySubclass.emplace TextureInfo.kMaxSubclassSize payloadSize = none) ∧
    (BackendTexture.kMaxSubclassSize < payloadSize →
      SkAnySubclass.emplace BackendTexture.kMaxSubclassSize payloadSize = none) ∧
    (∀ capacity stored, SkAnySubclass.emplace capacity payloadSize = some stored →
      stored = payloadSize) := by
  refine ⟨?_, ?_, ?_⟩
  · intro h
    have : ¬ payloadSize ≤ TextureInfo.kMaxSubclassSize := by omega
    simp [SkAnySubclass.emplace, this]
  · intro h
    have : ¬ payloadSize ≤ BackendTexture.kMaxSubclassSize := by omega
    simp [SkAnySubclass.emplace, this]
  · intro capacity stored h
    by_cases hc : payloadSize ≤ capacity <;> simp [SkAnySubclass.emplace, hc] at h
    exact h.symm

/-- C10: `operator!=` is exactly the negation of `operator==`, both for
`TextureInfo` and for `BackendTexture`. -/
theorem opNe_is_negation (a b : TextureInfo) (c d : BackendTexture) :
    TextureInfo.opNe a b = !(TextureInfo.opEq a b) ∧
    (TextureInfo.opNe a b = true ↔ ¬ TextureInfo.opEq a b = true) ∧
    BackendTexture.opNe c d = !(BackendTexture.opEq c d) ∧
    (BackendTexture.opNe c d = true ↔ ¬ BackendTexture.opEq c d = true) := by
  refine ⟨rfl, ?_, rfl, ?_⟩ <;> simp [TextureInfo.opNe, BackendTexture.opNe]

end Skia
